import Mathlib

/-!
Shallow embedding of the risk-scoring engine of the USPTO trademark
analyzer: `backend/app/services/risk_scorer.py` together with the batch
rollup computed in `backend/app/services/ai_analyzer.py`.

Python floats are modelled as rationals (`Rat`): every score constant in
the source is a decimal literal and all arithmetic on scores is exact in
`Rat`.  Python lists become `List`, the Python sets of class codes become
`Finset String`, and the optional third-party similarity libraries
(`Levenshtein`, `jellyfish`) are modelled by a capability record so each
statement can be settled for every capability configuration.
-/

/-- `TrademarkStatus` enum (`app/models/trademark.py`). -/
inductive TrademarkStatus where
  | registered
  | pending
  | abandoned
  | cancelled
  | expired
  | unknown
deriving DecidableEq

/-- `RiskLevel` enum (`app/models/risk.py`). -/
inductive RiskLevel where
  | critical
  | high
  | medium
  | low
deriving DecidableEq

/-- Candidate trademark record (`app/models/trademark.py`).  Only the
fields the scoring engine reads are modelled; the date, attorney and
image metadata fields are never consumed by the scorer. -/
structure Trademark where
  serial_number : String
  mark_text : String
  owner_name : String
  status : TrademarkStatus
  international_classes : List String
  goods_services_description : Option String

/-- The four factor scores (`app/models/risk.py`, `RiskFactors`). -/
structure RiskFactors where
  similarity_score : Rat
  class_overlap_score : Rat
  status_strength_score : Rat
  use_commerce_score : Rat

/-- Capability configuration for the optional similarity libraries
(`risk_scorer.py` lines 7-17): the `HAS_LEVENSHTEIN` / `HAS_JELLYFISH`
flags, plus the phonetic encodings supplied by `jellyfish`, kept
abstract so that every result holds for every concrete encoding. -/
structure SimCaps where
  HAS_LEVENSHTEIN : Bool
  HAS_JELLYFISH : Bool
  soundex : List Char → List Char
  metaphone : List Char → List Char

/-- Scoring weights (`RiskScorer`, `risk_scorer.py` lines 27-30). -/
def SIMILARITY_WEIGHT : Rat := 0.40

/-- Class-overlap weight (`risk_scorer.py` line 28). -/
def CLASS_OVERLAP_WEIGHT : Rat := 0.30

/-- Status/strength weight (`risk_scorer.py` line 29). -/
def STATUS_STRENGTH_WEIGHT : Rat := 0.20

/-- Use-in-commerce weight (`risk_scorer.py` line 30). -/
def USE_COMMERCE_WEIGHT : Rat := 0.10

/-- Famous/well-known marks (`RiskScorer.FAMOUS_MARKS`,
`risk_scorer.py` lines 33-56).  A Python `set` of strings; membership is
all the scorer uses, so a list with `contains` is an exact model. -/
def FAMOUS_MARKS : List String :=
  ["APPLE", "THINK DIFFERENT", "GOOGLE", "MICROSOFT", "AMAZON", "FACEBOOK",
   "META", "INSTAGRAM", "YOUTUBE", "TWITTER", "X", "TESLA", "NETFLIX",
   "UBER", "AIRBNB",
   "NIKE", "JUST DO IT", "ADIDAS", "PUMA", "UNDER ARMOUR", "REEBOK",
   "COCA-COLA", "COKE", "PEPSI", "MCDONALD\x27S", "I\x27M LOVIN\x27 IT", "STARBUCKS",
   "BURGER KING", "KFC", "SUBWAY", "WENDY\x27S", "RED BULL",
   "FORD", "TOYOTA", "HONDA", "BMW", "MERCEDES", "MERCEDES-BENZ", "FERRARI",
   "PORSCHE", "CHEVROLET", "DODGE",
   "GUCCI", "LOUIS VUITTON", "CHANEL", "PRADA", "ROLEX", "CARTIER",
   "WALMART", "TARGET", "COSTCO", "HOME DEPOT", "IKEA", "VISA",
   "MASTERCARD", "AMERICAN EXPRESS", "PAYPAL"]

/-- The ASCII whitespace characters removed by Python `str.strip()`
(space, tab, newline, carriage return, vertical tab, form feed; the
Unicode space classes are not modelled). -/
def py_space (c : Char) : Bool :=
  c = ' ' || c = '\t' || c = '\n' || c = '\r' || c = '\x0b' || c = '\x0c'

/-- Python `s.upper().strip()`, the normalization the scorer applies to
every mark text (ASCII model of the Python case mapping), yielding the
normalized character sequence. -/
def normalize_mark (s : String) : List Char :=
  let t := s.toList.map Char.toUpper
  ((t.dropWhile py_space).reverse.dropWhile py_space).reverse

/-- `RiskScorer.is_famous_mark` (`risk_scorer.py` lines 58-61):
normalize (uppercase, trim) and test membership in the famous-marks set. -/
def is_famous_mark (mark_text : String) : Bool :=
  decide (String.mk (normalize_mark mark_text) ∈ FAMOUS_MARKS)

/-- The edit distance computed by the external `Levenshtein.distance`
call: the standard Levenshtein recurrence on the character sequences. -/
def levenshtein_distance : List Char → List Char → Nat
  | [], ys => ys.length
  | xs, [] => xs.length
  | x :: xs, y :: ys =>
    if x = y then
      levenshtein_distance xs ys
    else
      1 + min (min (levenshtein_distance xs (y :: ys)) (levenshtein_distance (x :: xs) ys))
          (levenshtein_distance xs ys)

/-- Positional character matches of the zipped strings
(`risk_scorer.py` line 157: count positions where the characters agree). -/
def countMatches : List Char → List Char → Nat
  | x :: xs, y :: ys => (if x = y then 1 else 0) + countMatches xs ys
  | _, _ => 0

/-- The normalized Levenshtein signal (`risk_scorer.py` lines 149-152):
`(1 - lev_distance / max_len) * 100 if max_len > 0 else 0`. -/
def lev_similarity (q m : List Char) : Rat :=
  let max_len := max q.length m.length
  if 0 < max_len then (1 - (levenshtein_distance q m : Rat) / (max_len : Rat)) * 100 else 0

/-- The fallback character-based signal (`risk_scorer.py` lines 155-159):
`matching_chars / max_len * 100`, only appended when `max_len > 0`. -/
def simple_similarity (q m : List Char) : Rat :=
  let max_len := max q.length m.length
  ((countMatches q m : Rat) / (max_len : Rat)) * 100

/-- Python substring containment (`query in mark_text`): the first
sequence occurs contiguously inside the second. -/
def occurs_in (q : List Char) : List Char → Bool
  | [] => q.isEmpty
  | c :: ms => q.isPrefixOf (c :: ms) || occurs_in q ms

/-- The list `scores` built by `calculate_similarity_score`
(`risk_scorer.py` lines 145-176) on the already-normalized character
sequences: the edit-distance block (or its fallback), then the two
phonetic signals when `jellyfish` is available, then always the
substring-containment score. -/
def similarity_signals (cfg : SimCaps) (q m : List Char) : List Rat :=
  ((if cfg.HAS_LEVENSHTEIN then
      [lev_similarity q m]
    else
      if 0 < max q.length m.length then [simple_similarity q m] else []) ++
   (if cfg.HAS_JELLYFISH then
      [if cfg.soundex q = cfg.soundex m then (80 : Rat) else 0,
       if cfg.metaphone q = cfg.metaphone m then (80 : Rat) else 0]
    else [])) ++
  [if occurs_in q m || occurs_in m q then (70 : Rat) else 0]

/-- `RiskScorer.calculate_similarity_score` (`risk_scorer.py` lines
128-181): normalize both strings, return 100 on exact match, otherwise
the maximum of the collected signals, clamped to 100
(`max(scores) if scores else 0.0`, then `min(similarity_score, 100.0)`). -/
def calculate_similarity_score (cfg : SimCaps) (query mark_text : String) : Rat :=
  let q := normalize_mark query
  let m := normalize_mark mark_text
  if q = m then 100
  else
    let scores := similarity_signals cfg q m
    min ((scores.max?).getD 0) 100

/-- Python `str.zfill`: left-pad with zeros to the given width, keeping a
leading sign character in front of the inserted padding. -/
def zfill (s : String) (width : Nat) : String :=
  if width ≤ s.length then s
  else
    match s.toList with
    | [] => String.mk (List.replicate width '0')
    | c :: rest =>
      if c = '+' ∨ c = '-' then
        String.mk (c :: (List.replicate (width - s.length) '0' ++ rest))
      else
        String.mk (List.replicate (width - s.length) '0' ++ (c :: rest))

/-- `RiskScorer.calculate_class_overlap_score` (`risk_scorer.py` lines
183-240).  Branch order follows the source: missing mark classes first,
then the explicit-overlap computation on the zero-padded sets, then the
no-query-classes inference. -/
def calculate_class_overlap_score (query_classes mark_classes : List String)
    (similarity_score : Rat) : Rat :=
  if mark_classes = [] then
    if 95 ≤ similarity_score then 85
    else if 80 ≤ similarity_score then 70
    else if 60 ≤ similarity_score then 55
    else 30
  else if query_classes ≠ [] then
    let normalized_query := (query_classes.map (fun c => zfill c 3)).toFinset
    let normalized_mark := (mark_classes.map (fun c => zfill c 3)).toFinset
    let overlap := normalized_query ∩ normalized_mark
    if overlap ≠ ∅ then
      let overlap_ratio : Rat := (overlap.card : Rat) / (normalized_query.card : Rat)
      min 100 (80 + overlap_ratio * 20)
    else
      if 95 ≤ similarity_score then 40
      else if 80 ≤ similarity_score then 25
      else 10
  else
    if 95 ≤ similarity_score then 90
    else if 80 ≤ similarity_score then 75
    else if 60 ≤ similarity_score then 60
    else 40

/-- `RiskScorer.calculate_status_strength_score` (`risk_scorer.py` lines
242-255): pure lookup on the status enum. -/
def calculate_status_strength_score (trademark : Trademark) : Rat :=
  match trademark.status with
  | TrademarkStatus.registered => 100
  | TrademarkStatus.pending => 70
  | TrademarkStatus.abandoned => 20
  | TrademarkStatus.cancelled => 20
  | TrademarkStatus.expired => 30
  | TrademarkStatus.unknown => 50

/-- `RiskScorer.calculate_use_commerce_score` (`risk_scorer.py` lines
257-273): status used as a proxy for use in commerce. -/
def calculate_use_commerce_score (trademark : Trademark) : Rat :=
  if trademark.status = TrademarkStatus.registered then 80
  else if trademark.status = TrademarkStatus.pending then 50
  else 20

/-- `RiskScorer.get_risk_level` (`risk_scorer.py` lines 275-284). -/
def get_risk_level (risk_score : Rat) : RiskLevel :=
  if 90 ≤ risk_score then RiskLevel.critical
  else if 70 ≤ risk_score then RiskLevel.high
  else if 40 ≤ risk_score then RiskLevel.medium
  else RiskLevel.low

/-- `RiskScorer.calculate_risk_score` (`risk_scorer.py` lines 63-126):
the four factor scores, the weighted overall score, and the famous-mark
override elevating the score to at least 95.  The printed diagnostic
trace of the source is observability only and carries no data flow. -/
def calculate_risk_score (cfg : SimCaps) (query : String) (trademark : Trademark)
    (query_classes : List String) : Rat × RiskFactors :=
  let similarity_score := calculate_similarity_score cfg query trademark.mark_text
  let class_overlap_score :=
    calculate_class_overlap_score query_classes trademark.international_classes similarity_score
  let status_strength_score := calculate_status_strength_score trademark
  let use_commerce_score := calculate_use_commerce_score trademark
  let overall_score :=
    similarity_score * SIMILARITY_WEIGHT +
    class_overlap_score * CLASS_OVERLAP_WEIGHT +
    status_strength_score * STATUS_STRENGTH_WEIGHT +
    use_commerce_score * USE_COMMERCE_WEIGHT
  let overall_score :=
    if is_famous_mark trademark.mark_text ∧ 80 ≤ similarity_score ∧
        trademark.status = TrademarkStatus.registered then
      max overall_score 95
    else overall_score
  (overall_score, RiskFactors.mk similarity_score class_overlap_score
    status_strength_score use_commerce_score)

/-- Per-candidate analysis record (`app/models/risk.py`,
`TrademarkRiskAnalysis`); only the fields the batch rollup reads are
modelled (the explanation and recommendation fields carry no data flow
into the rollup). -/
structure TrademarkRiskAnalysis where
  serial_number : String
  mark_text : String
  owner_name : String
  risk_score : Rat
  risk_level : RiskLevel

/-- Per-level counts of `AIAnalyzer.generate_summary`
(`ai_analyzer.py` lines 41-46): `sum(1 for r in risk_analyses if
r.risk_level == ...)` for each level. -/
structure RiskDistribution where
  critical : Nat
  high : Nat
  medium : Nat
  low : Nat

/-- The `risk_distribution` dictionary of `AIAnalyzer.generate_summary`. -/
def risk_distribution (risk_analyses : List TrademarkRiskAnalysis) : RiskDistribution :=
  RiskDistribution.mk
    (risk_analyses.countP (fun r => decide (r.risk_level = RiskLevel.critical)))
    (risk_analyses.countP (fun r => decide (r.risk_level = RiskLevel.high)))
    (risk_analyses.countP (fun r => decide (r.risk_level = RiskLevel.medium)))
    (risk_analyses.countP (fun r => decide (r.risk_level = RiskLevel.low)))

/-- The overall-risk rollup of `AIAnalyzer.generate_summary`
(`ai_analyzer.py` lines 48-56). -/
def overall_risk_level (risk_analyses : List TrademarkRiskAnalysis) : RiskLevel :=
  let d := risk_distribution risk_analyses
  if 0 < d.critical then RiskLevel.critical
  else if 2 ≤ d.high then RiskLevel.high
  else if 1 ≤ d.high ∨ 3 ≤ d.medium then RiskLevel.medium
  else RiskLevel.low

/-- The spec's wording of the rollup (spec §4.7), stated directly on the
per-level counts: any critical present → critical; else at least two
high → high; else at least one high or at least three medium → medium;
else low.  Used to compare the code's rollup against the spec. -/
def spec_overall_rollup (critical high medium : Nat) : RiskLevel :=
  if 1 ≤ critical then RiskLevel.critical
  else if 2 ≤ high then RiskLevel.high
  else if 1 ≤ high ∨ 3 ≤ medium then RiskLevel.medium
  else RiskLevel.low

/-- A capability configuration with neither optional library installed;
used to instantiate statements at concrete inputs. -/
def no_caps : SimCaps :=
  SimCaps.mk false false (fun s => s) (fun s => s)

/-- A concrete registered candidate bearing a famous mark, used to
instantiate the famous-mark override at a concrete input. -/
def nike_tm : Trademark :=
  Trademark.mk "88234567" "NIKE" "Nike, Inc." TrademarkStatus.registered [] none

theorem lev_nil_right (xs : List Char) : levenshtein_distance xs [] = xs.length := by
  cases xs <;> simp [levenshtein_distance]

theorem levenshtein_distance_comm (xs ys : List Char) :
    levenshtein_distance xs ys = levenshtein_distance ys xs := by
  induction xs, ys using levenshtein_distance.induct with
  | case1 ys => rw [lev_nil_right]; simp [levenshtein_distance]
  | case2 xs hne => rw [lev_nil_right]; simp [levenshtein_distance]
  | case3 xs y ys ih => simp [levenshtein_distance, ih]
  | case4 x xs y ys h ih1 ih2 ih3 =>
    simp only [levenshtein_distance, if_neg h, if_neg (Ne.symm h)]
    rw [ih1, ih2, ih3]
    omega

theorem countMatches_comm (xs ys : List Char) : countMatches xs ys = countMatches ys xs := by
  induction xs generalizing ys with
  | nil => cases ys <;> simp [countMatches]
  | cons x xs ih =>
    cases ys with
    | nil => simp [countMatches]
    | cons y ys =>
      simp only [countMatches, ih ys]
      rcases eq_or_ne x y with h | h
      · subst h; rfl
      · rw [if_neg h, if_neg (Ne.symm h)]

theorem lev_similarity_comm (q m : List Char) : lev_similarity q m = lev_similarity m q := by
  simp only [lev_similarity, levenshtein_distance_comm q m, Nat.max_comm q.length m.length]

theorem simple_similarity_comm (q m : List Char) : simple_similarity q m = simple_similarity m q := by
  simp only [simple_similarity, countMatches_comm q m, Nat.max_comm q.length m.length]

theorem phonetic_signal_comm (f : List Char → List Char) (q m : List Char) :
    (if f q = f m then (80 : Rat) else 0) = (if f m = f q then (80 : Rat) else 0) := by
  rcases eq_or_ne (f q) (f m) with h | h
  · rw [if_pos h, if_pos h.symm]
  · rw [if_neg h, if_neg (Ne.symm h)]

theorem similarity_signals_comm (cfg : SimCaps) (q m : List Char) :
    similarity_signals cfg q m = similarity_signals cfg m q := by
  simp only [similarity_signals, lev_similarity_comm q m, simple_similarity_comm q m,
    Nat.max_comm q.length m.length, Bool.or_comm (occurs_in q m) (occurs_in m q),
    phonetic_signal_comm cfg.soundex q m, phonetic_signal_comm cfg.metaphone q m]

theorem le_foldl_max_init (l : List Rat) (a b : Rat) (h : a ≤ b) : a ≤ l.foldl max b := by
  induction l generalizing b with
  | nil => exact h
  | cons x xs ih => exact ih (max b x) (le_trans h (le_max_left b x))

theorem mem_le_foldl_max (l : List Rat) (x : Rat) (hx : x ∈ l) : ∀ a, x ≤ l.foldl max a := by
  induction l with
  | nil => simp at hx
  | cons y ys ih =>
    intro a
    rcases List.mem_cons.1 hx with h | h
    · subst h; exact le_foldl_max_init ys x (max a x) (le_max_right a x)
    · exact ih h (max a y)

theorem le_max?_getD_of_mem {l : List Rat} {x : Rat} (hx : x ∈ l) : x ≤ (l.max?).getD 0 := by
  cases l with
  | nil => simp at hx
  | cons y ys =>
    rw [List.max?_cons', Option.getD_some]
    rcases List.mem_cons.1 hx with h | h
    · exact le_foldl_max_init ys x y (le_of_eq h)
    · exact mem_le_foldl_max ys x h y

theorem contains_signal_mem (cfg : SimCaps) (q m : List Char) :
    (if occurs_in q m || occurs_in m q then (70 : Rat) else 0) ∈ similarity_signals cfg q m := by
  simp only [similarity_signals]
  exact List.mem_append_right _ (List.mem_singleton_self _)

theorem contains_signal_nonneg (q m : List Char) :
    (0 : Rat) ≤ (if occurs_in q m || occurs_in m q then (70 : Rat) else 0) := by
  split <;> norm_num

/-- Claim C1: a candidate whose normalized mark text is in the famous-marks
set, whose computed similarity is at least 80, and whose status is
registered, gets an overall score equal to `max(weighted_sum, 95)` from
`calculate_risk_score` — hence at least 95 — and `get_risk_level` maps
that score to critical, regardless of the other factor values. -/
theorem famous_mark_override_critical (cfg : SimCaps) (query : String) (tm : Trademark)
    (query_classes : List String)
    (hfam : is_famous_mark tm.mark_text = true)
    (hsim : 80 ≤ calculate_similarity_score cfg query tm.mark_text)
    (hst : tm.status = TrademarkStatus.registered) :
    (calculate_risk_score cfg query tm query_classes).1 =
      max ((calculate_risk_score cfg query tm query_classes).2.similarity_score * SIMILARITY_WEIGHT +
           (calculate_risk_score cfg query tm query_classes).2.class_overlap_score * CLASS_OVERLAP_WEIGHT +
           (calculate_risk_score cfg query tm query_classes).2.status_strength_score * STATUS_STRENGTH_WEIGHT +
           (calculate_risk_score cfg query tm query_classes).2.use_commerce_score * USE_COMMERCE_WEIGHT) 95 ∧
    95 ≤ (calculate_risk_score cfg query tm query_classes).1 ∧
    get_risk_level (calculate_risk_score cfg query tm query_classes).1 = RiskLevel.critical := by
  simp only [calculate_risk_score]
  rw [if_pos ⟨hfam, hsim, hst⟩]
  refine ⟨rfl, le_max_right _ _, ?_⟩
  unfold get_risk_level
  rw [if_pos (le_trans (by norm_num) (le_max_right _ (95 : Rat)))]

/-- Witness for C1 at the concrete candidate `nike_tm` (mark "NIKE",
registered) against query "NIKE". -/
theorem famous_mark_override_critical_witness :
    is_famous_mark nike_tm.mark_text = true ∧
    80 ≤ calculate_similarity_score no_caps "NIKE" nike_tm.mark_text ∧
    (95 ≤ (calculate_risk_score no_caps "NIKE" nike_tm []).1 ∧
     get_risk_level (calculate_risk_score no_caps "NIKE" nike_tm []).1 = RiskLevel.critical) :=
  ⟨by decide, by decide,
    (famous_mark_override_critical no_caps "NIKE" nike_tm [] (by decide) (by decide) rfl).2⟩

/-- Claim C2: `get_risk_level` yields critical exactly on scores at least
90, high exactly on 70-90 (right-open), medium exactly on 40-70
(right-open), low exactly below 40; each tier boundary is inclusive on
its lower bound, so 90 is critical, 70 high and 40 medium. -/
theorem get_risk_level_bands (s : Rat) :
    ((get_risk_level s = RiskLevel.critical ↔ 90 ≤ s) ∧
     (get_risk_level s = RiskLevel.high ↔ 70 ≤ s ∧ s < 90) ∧
     (get_risk_level s = RiskLevel.medium ↔ 40 ≤ s ∧ s < 70) ∧
     (get_risk_level s = RiskLevel.low ↔ s < 40)) ∧
    get_risk_level 90 = RiskLevel.critical ∧
    get_risk_level 70 = RiskLevel.high ∧
    get_risk_level 40 = RiskLevel.medium := by
  refine ⟨?_, by decide, by decide, by decide⟩
  unfold get_risk_level
  by_cases h90 : 90 ≤ s
  · simp [h90, not_lt.2 h90, not_lt.2 (show (70:Rat) ≤ s by linarith),
      not_lt.2 (show (40:Rat) ≤ s by linarith), show (70:Rat) ≤ s by linarith,
      show (40:Rat) ≤ s by linarith]
  · by_cases h70 : 70 ≤ s
    · simp [h90, h70, not_le.1 h90, not_lt.2 h70,
        not_lt.2 (show (40:Rat) ≤ s by linarith), show (40:Rat) ≤ s by linarith]
    · by_cases h40 : 40 ≤ s
      · simp [h90, h70, h40, not_le.1 h70, not_lt.2 h40]
      · simp [h90, h70, h40, not_le.1 h40]

/-- Claim C3: the four scoring weights sum to exactly 1, and for factor
scores each in [0,100] the weighted aggregate computed by
`calculate_risk_score` before any famous-mark override stays in [0,100]. -/
theorem weighted_aggregate_bounds (s c st u : Rat)
    (hs0 : 0 ≤ s) (hs1 : s ≤ 100) (hc0 : 0 ≤ c) (hc1 : c ≤ 100)
    (hst0 : 0 ≤ st) (hst1 : st ≤ 100) (hu0 : 0 ≤ u) (hu1 : u ≤ 100) :
    SIMILARITY_WEIGHT + CLASS_OVERLAP_WEIGHT + STATUS_STRENGTH_WEIGHT + USE_COMMERCE_WEIGHT = 1 ∧
    0 ≤ s * SIMILARITY_WEIGHT + c * CLASS_OVERLAP_WEIGHT +
        st * STATUS_STRENGTH_WEIGHT + u * USE_COMMERCE_WEIGHT ∧
    s * SIMILARITY_WEIGHT + c * CLASS_OVERLAP_WEIGHT +
        st * STATUS_STRENGTH_WEIGHT + u * USE_COMMERCE_WEIGHT ≤ 100 := by
  simp only [SIMILARITY_WEIGHT, CLASS_OVERLAP_WEIGHT, STATUS_STRENGTH_WEIGHT, USE_COMMERCE_WEIGHT]
  norm_num
  constructor <;> linarith

/-- Witness for C3 with all four factors at 50. -/
theorem weighted_aggregate_bounds_witness :
    ((0 : Rat) ≤ 50 ∧ (50 : Rat) ≤ 100) ∧
    (SIMILARITY_WEIGHT + CLASS_OVERLAP_WEIGHT + STATUS_STRENGTH_WEIGHT + USE_COMMERCE_WEIGHT = 1 ∧
     0 ≤ 50 * SIMILARITY_WEIGHT + 50 * CLASS_OVERLAP_WEIGHT +
         50 * STATUS_STRENGTH_WEIGHT + 50 * USE_COMMERCE_WEIGHT ∧
     50 * SIMILARITY_WEIGHT + 50 * CLASS_OVERLAP_WEIGHT +
         50 * STATUS_STRENGTH_WEIGHT + 50 * USE_COMMERCE_WEIGHT ≤ 100) :=
  ⟨⟨by decide, by decide⟩,
    weighted_aggregate_bounds 50 50 50 50 (by decide) (by decide) (by decide) (by decide)
      (by decide) (by decide) (by decide) (by decide)⟩

/-- Claim C4, amended: when both inputs are empty after uppercasing and
trimming (whitespace-only inputs included), `calculate_similarity_score`
returns 100 through the exact-match branch — not 0 — and no division is
attempted; the division-guarded Levenshtein signal itself evaluates to 0
on two empty strings rather than dividing by zero. -/
theorem similarity_both_empty (cfg : SimCaps) (a b : String)
    (ha : normalize_mark a = []) (hb : normalize_mark b = []) :
    calculate_similarity_score cfg a b = 100 ∧
    lev_similarity (normalize_mark a) (normalize_mark b) = 0 := by
  constructor
  · simp [calculate_similarity_score, ha, hb]
  · rw [ha, hb]; simp [lev_similarity]

/-- Witness for C4 (amended) at a whitespace-only and an empty string. -/
theorem similarity_both_empty_witness :
    normalize_mark "  " = [] ∧ normalize_mark "" = [] ∧
    (calculate_similarity_score no_caps "  " "" = 100 ∧
     lev_similarity (normalize_mark "  ") (normalize_mark "") = 0) :=
  ⟨by decide, by decide, similarity_both_empty no_caps "  " "" (by decide) (by decide)⟩

/-- Counterexample to C4 as stated: on a whitespace-only and an empty
input the function returns 100, not the claimed 0. -/
theorem similarity_both_empty_cex :
    calculate_similarity_score no_caps "  " "" = 100 ∧ (100 : Rat) ≠ 0 := by
  constructor <;> decide

/-- Claim C5, amended: with non-empty candidate classes, non-empty query
classes and a non-empty intersection of the zero-padded class sets,
`calculate_class_overlap_score` returns exactly
`min(100, 80 + (card of intersection / card of the deduplicated
zero-padded query set) * 20)`; the denominator is the size of the
normalized query set, not the length of the caller-supplied list. -/
theorem class_overlap_nonempty_overlap (query_classes mark_classes : List String) (s : Rat)
    (hm : mark_classes ≠ [])
    (hq : query_classes ≠ [])
    (hov : (query_classes.map (fun c => zfill c 3)).toFinset ∩
        (mark_classes.map (fun c => zfill c 3)).toFinset ≠ ∅) :
    calculate_class_overlap_score query_classes mark_classes s =
      min 100 (80 +
        ((((query_classes.map (fun c => zfill c 3)).toFinset ∩
            (mark_classes.map (fun c => zfill c 3)).toFinset).card : Rat) /
          ((query_classes.map (fun c => zfill c 3)).toFinset.card : Rat)) * 20) := by
  simp only [calculate_class_overlap_score]
  rw [if_neg hm, if_pos hq, if_pos hov]

/-- Witness for C5 (amended): query classes 009 and 035 against candidate
class 9, overlap {009} of size 1 over a query set of size 2. -/
theorem class_overlap_nonempty_overlap_witness :
    (["9"] : List String) ≠ [] ∧ (["009", "035"] : List String) ≠ [] ∧
    ((["009", "035"].map (fun c => zfill c 3)).toFinset ∩
      (["9"].map (fun c => zfill c 3)).toFinset ≠ ∅) ∧
    calculate_class_overlap_score ["009", "035"] ["9"] 0 =
      min 100 (80 +
        ((((["009", "035"].map (fun c => zfill c 3)).toFinset ∩
            (["9"].map (fun c => zfill c 3)).toFinset).card : Rat) /
          ((["009", "035"].map (fun c => zfill c 3)).toFinset.card : Rat)) * 20) :=
  ⟨by decide, by decide, by decide,
    class_overlap_nonempty_overlap ["009", "035"] ["9"] 0 (by decide) (by decide) (by decide)⟩

/-- Counterexample to C5 as stated: with query list ["9", "009"] (two
entries that normalize to the single class 009) and candidate class 009,
the code returns 100, while the claimed formula with the caller-supplied
list length 2 as denominator predicts 90. -/
theorem class_overlap_list_denominator_cex :
    calculate_class_overlap_score ["9", "009"] ["009"] 0 = 100 ∧
    min 100 (80 +
      ((((["9", "009"].map (fun c => zfill c 3)).toFinset ∩
          (["009"].map (fun c => zfill c 3)).toFinset).card : Rat) /
        (((["9", "009"] : List String).length : Nat) : Rat)) * 20) = 90 := by
  constructor
  · simp only [calculate_class_overlap_score]
    rw [if_neg (by decide : ¬((["009"] : List String) = [])),
        if_pos (by decide : (["9", "009"] : List String) ≠ []),
        if_pos (by decide : (["9", "009"].map (fun c => zfill c 3)).toFinset ∩
          (["009"].map (fun c => zfill c 3)).toFinset ≠ ∅),
        show ((["9", "009"].map (fun c => zfill c 3)).toFinset ∩
          (["009"].map (fun c => zfill c 3)).toFinset).card = 1 by decide,
        show (["9", "009"].map (fun c => zfill c 3)).toFinset.card = 1 by decide]
    norm_num [min_def]
  · rw [show ((["9", "009"].map (fun c => zfill c 3)).toFinset ∩
        (["009"].map (fun c => zfill c 3)).toFinset).card = 1 by decide]
    norm_num [min_def]

/-- Claim C6: with an empty candidate class list,
`calculate_class_overlap_score` returns 85 / 70 / 55 / 30 by similarity
thresholds 95 / 80 / 60, whatever the query classes are — the
missing-data branch takes precedence over the query-classes branches. -/
theorem class_overlap_missing_mark_classes (query_classes : List String) (s : Rat) :
    calculate_class_overlap_score query_classes [] s =
      if 95 ≤ s then 85 else if 80 ≤ s then 70 else if 60 ≤ s then 55 else 30 := by
  simp [calculate_class_overlap_score]

/-- Claim C7: `calculate_similarity_score` is symmetric in its two string
arguments, in every capability configuration. -/
theorem calculate_similarity_score_comm (cfg : SimCaps) (a b : String) :
    calculate_similarity_score cfg a b = calculate_similarity_score cfg b a := by
  simp only [calculate_similarity_score]
  rcases eq_or_ne (normalize_mark a) (normalize_mark b) with h | h
  · rw [if_pos h, if_pos h.symm]
  · rw [if_neg h, if_neg (Ne.symm h), similarity_signals_comm]

/-- Claim C8: `calculate_similarity_score` is in [0,100] for every pair
of strings and every capability configuration, and
`calculate_class_overlap_score` is in [0,100] for every combination of
query classes, mark classes and similarity context. -/
theorem scores_in_unit_range :
    (∀ (cfg : SimCaps) (a b : String),
      0 ≤ calculate_similarity_score cfg a b ∧ calculate_similarity_score cfg a b ≤ 100) ∧
    (∀ (query_classes mark_classes : List String) (s : Rat),
      0 ≤ calculate_class_overlap_score query_classes mark_classes s ∧
      calculate_class_overlap_score query_classes mark_classes s ≤ 100) := by
  constructor
  · intro cfg a b
    simp only [calculate_similarity_score]
    split
    · norm_num
    · refine ⟨le_min ?_ (by norm_num), min_le_right _ _⟩
      exact le_trans (contains_signal_nonneg _ _) (le_max?_getD_of_mem (contains_signal_mem cfg _ _))
  · intro query_classes mark_classes s
    simp only [calculate_class_overlap_score]
    split_ifs <;> norm_num
    positivity

/-- Claim C9: the overall-risk rollup of `generate_summary` equals the
spec's count-based cascade — critical when any critical is present, else
high when at least two high, else medium when at least one high or at
least three medium, else low. -/
theorem overall_rollup_eq_spec (rs : List TrademarkRiskAnalysis) :
    overall_risk_level rs = spec_overall_rollup
      (rs.countP (fun r => decide (r.risk_level = RiskLevel.critical)))
      (rs.countP (fun r => decide (r.risk_level = RiskLevel.high)))
      (rs.countP (fun r => decide (r.risk_level = RiskLevel.medium))) := rfl

/-- Claim C10: the substring-containment score is always the last entry
of the signal list, so the list is never empty and its maximum is always
defined, even with both optional subsystems unavailable. -/
theorem similarity_signals_total (cfg : SimCaps) (q m : List Char) :
    similarity_signals cfg q m ≠ [] ∧
    (similarity_signals cfg q m).getLast? =
      some (if occurs_in q m || occurs_in m q then (70 : Rat) else 0) ∧
    ((similarity_signals cfg q m).max?).isSome = true := by
  refine ⟨?_, ?_, ?_⟩
  · simp [similarity_signals]
  · simp only [similarity_signals]
    exact List.getLast?_concat _
  · exact List.isSome_max?_of_mem (contains_signal_mem cfg q m)
